import Mathlib

/-!
# Verification of the `pear-fe-docs` documentation repository

This file gives a shallow embedding of the declarative data of the
repository `wgbx/pear-fe-docs`: the sidebar configurations
(`docs/.vitepress/sidebar.ts`, `docs/.vitepress/sidebar/enSidebar.ts`,
`docs/.vitepress/sidebar/zhSidebar.ts`), the site configuration
(`docs/.vitepress/config.mts`), and the inventory of Markdown documents
with their front-matter keys.  Theorems settle the content-consistency
properties stated in the repository's specification.
-/

/-- A sidebar entry, as written in the sidebar configuration objects.
In the source every entry literal is either a leaf `{ text, link }`
or a group `{ text, [collapsed,] items }`; the optional `collapsed`
field is recorded exactly where the source writes it. -/
inductive SidebarEntry where
  | leaf (text link : String)
  | group (text : String) (collapsed : Option Bool) (items : List SidebarEntry)

/-- A sidebar configuration: a mapping from route-prefix key to a list
of entries, in source order. -/
def SidebarConfig := List (String × List SidebarEntry)

namespace SidebarEntry

mutual

/-- All `link` values reachable in one entry (depth first, source order). -/
def links : SidebarEntry → List String
  | .leaf _ l => [l]
  | .group _ _ items => linksAll items

/-- All `link` values reachable in a list of entries. -/
def linksAll : List SidebarEntry → List String
  | [] => []
  | e :: es => links e ++ linksAll es

end

mutual

/-- All entries reachable in one entry, the entry itself included. -/
def entries : SidebarEntry → List SidebarEntry
  | .leaf t l => [.leaf t l]
  | .group t c items => .group t c items :: entriesAll items

/-- All entries reachable in a list of entries. -/
def entriesAll : List SidebarEntry → List SidebarEntry
  | [] => []
  | e :: es => entries e ++ entriesAll es

end

mutual

/-- All parent lists strictly inside one entry: for a group, its
`items` list and, recursively, the parent lists inside the items. -/
def innerLists : SidebarEntry → List (List SidebarEntry)
  | .leaf _ _ => []
  | .group _ _ items => items :: innerListsAll items

/-- All parent lists strictly inside a list of entries. -/
def innerListsAll : List SidebarEntry → List (List SidebarEntry)
  | [] => []
  | e :: es => innerLists e ++ innerListsAll es

end

end SidebarEntry

namespace SidebarConfig

/-- The `(key, link)` pairs: every link reachable under each
route-prefix key, paired with that key. -/
def keyedLinks (c : SidebarConfig) : List (String × String) :=
  c.flatMap fun kv => (SidebarEntry.linksAll kv.2).map fun l => (kv.1, l)

/-- Every link reachable anywhere in the configuration. -/
def allLinks (c : SidebarConfig) : List String :=
  c.flatMap fun kv => SidebarEntry.linksAll kv.2

/-- Every entry reachable anywhere in the configuration. -/
def allEntries (c : SidebarConfig) : List SidebarEntry :=
  c.flatMap fun kv => SidebarEntry.entriesAll kv.2

/-- Every parent list: each key's top-level list, and every group's
`items` list, at any depth. -/
def parentLists (c : SidebarConfig) : List (List SidebarEntry) :=
  c.flatMap fun kv => kv.2 :: SidebarEntry.innerListsAll kv.2

/-- The `link` values of the entries directly under one parent
(leaves only: a group entry carries no `link`). -/
def directLinks (l : List SidebarEntry) : List String :=
  l.filterMap fun e =>
    match e with
    | .leaf _ lk => some lk
    | .group _ _ _ => none

end SidebarConfig

/-! ## `docs/.vitepress/sidebar.ts`

The legacy sidebar module at `docs/.vitepress/sidebar.ts`, exporting
`enSidebar` and `zhSidebar` (hooks and utils sections only).  It is the
module imported by the earlier revision of the site configuration. -/

namespace SidebarTs

/-- `enSidebar` of `docs/.vitepress/sidebar.ts`, transcribed verbatim. -/
def enSidebar : SidebarConfig := [
  ("/posts/hooks/", [
    .group "Hooks" none [
      .leaf "Introduction" "/posts/hooks/index.md",
      .leaf "State Management" "/posts/hooks/state.md",
      .leaf "Side Effects" "/posts/hooks/effect.md",
      .leaf "DOM Operations" "/posts/hooks/dom.md",
      .leaf "Others" "/posts/hooks/other.md"]]),
  ("/posts/utils/", [
    .group "Utils" none [
      .leaf "Introduction" "/posts/utils/index.md",
      .leaf "String" "/posts/utils/string.md",
      .leaf "Object" "/posts/utils/object.md",
      .leaf "Array" "/posts/utils/array.md",
      .leaf "Time" "/posts/utils/time.md",
      .leaf "Function" "/posts/utils/function.md",
      .leaf "Type" "/posts/utils/type.md",
      .leaf "Others" "/posts/utils/other.md"]])]

/-- `zhSidebar` of `docs/.vitepress/sidebar.ts`, transcribed verbatim. -/
def zhSidebar : SidebarConfig := [
  ("/zh/posts/hooks/", [
    .group "Hooks" none [
      .leaf "介绍" "/zh/posts/hooks/index.md",
      .leaf "状态管理" "/zh/posts/hooks/state.md",
      .leaf "副作用处理" "/zh/posts/hooks/effect.md",
      .leaf "DOM 操作" "/zh/posts/hooks/dom.md",
      .leaf "其他" "/zh/posts/hooks/other.md"]]),
  ("/zh/posts/utils/", [
    .group "Utils" none [
      .leaf "介绍" "/zh/posts/utils/index.md",
      .leaf "字符串处理" "/zh/posts/utils/string.md",
      .leaf "对象操作" "/zh/posts/utils/object.md",
      .leaf "数组操作" "/zh/posts/utils/array.md",
      .leaf "时间处理" "/zh/posts/utils/time.md",
      .leaf "函数工具" "/zh/posts/utils/function.md",
      .leaf "类型判断" "/zh/posts/utils/type.md",
      .leaf "其他工具" "/zh/posts/utils/other.md"]])]

end SidebarTs

/-! ## `docs/.vitepress/sidebar/enSidebar.ts` and `docs/.vitepress/sidebar/zhSidebar.ts`

The sidebar modules under `docs/.vitepress/sidebar/`, re-exported by
`docs/.vitepress/sidebar/index` and imported by the current
`docs/.vitepress/config.mts`. -/

namespace SidebarDir

/-- `enSidebar` of `docs/.vitepress/sidebar/enSidebar.ts`, transcribed
verbatim (the file whose name is lost in the extraction; it is the
`enSidebar` module re-exported next to `zhSidebar.ts`). -/
def enSidebar : SidebarConfig := [
  ("/posts/standard/", [
    .group "Standard" none [
      .leaf "Introduction" "/posts/standard/index.md",
      .group "React" (some false) [
        .leaf "React Coding Standards" "/posts/standard/react/react-coding-standards.md",
        .leaf "Avoid Arrow Functions in JSX" "/posts/standard/react/avoid-arrow-function-in-jsx.md",
        .leaf "useMemo and useCreation Guide" "/posts/standard/react/usememo-usecreation-guide.md",
        .leaf "React Architecture 30 Principles" "/posts/standard/react/react-architecture-principles.md"],
      .group "Best Practices" (some false) [
        .leaf "Git Standard" "/posts/standard/best-practices/git-standard.md",
        .leaf "Function Declaration Standard" "/posts/standard/best-practices/function-declaration.md",
        .leaf "SVG File Optimization Standard" "/posts/standard/best-practices/svg-optimization.md",
        .leaf "Prohibition of Enum Standard" "/posts/standard/best-practices/no-enum.md",
        .leaf "Module Export Standard" "/posts/standard/best-practices/module-export.md"],
      .group "GitHub" (some false) [
        .leaf "PR Description Guidelines" "/posts/standard/github/pr-description.md"]]]),
  ("/posts/incidents/", [
    .group "Incident Postmortem" none [
      .leaf "Introduction" "/posts/incidents/index.md",
      .leaf "PayPal SDK Crash" "/posts/incidents/paypal-sdk-crash-2026-01-15.md"]]),
  ("/posts/hooks/", [
    .group "Hooks" none [
      .leaf "Introduction" "/posts/hooks/index.md"]]),
  ("/posts/utils/", [
    .group "Utils" none [
      .leaf "Introduction" "/posts/utils/index.md"]]),
  ("/posts/components/", [
    .group "Components" none [
      .leaf "Introduction" "/posts/components/index.md",
      .group "Business Components" (some false) [
        .leaf "BookmarkBanner" "/posts/components/business/bookmark-banner.md"]]])]

/-- `zhSidebar` of `docs/.vitepress/sidebar/zhSidebar.ts`, transcribed
verbatim. -/
def zhSidebar : SidebarConfig := [
  ("/zh/posts/standard/", [
    .group "规范" none [
      .leaf "介绍" "/zh/posts/standard/index.md",
      .group "React" (some false) [
        .leaf "React 编码规范" "/zh/posts/standard/react/react-coding-standards.md",
        .leaf "避免在 JSX 中直接写箭头函数" "/zh/posts/standard/react/avoid-arrow-function-in-jsx.md",
        .leaf "useCreation 使用指南" "/zh/posts/standard/react/usememo-usecreation-guide.md",
        .leaf "架构 30 条原则" "/zh/posts/standard/react/react-architecture-principles.md"],
      .group "最佳实践" none [
        .leaf "Git 规范" "/zh/posts/standard/best-practices/git-standard.md",
        .leaf "工具函数声明规范" "/zh/posts/standard/best-practices/function-declaration.md",
        .leaf "SVG 文件优化规范" "/zh/posts/standard/best-practices/svg-optimization.md",
        .leaf "禁止使用枚举规范" "/zh/posts/standard/best-practices/no-enum.md",
        .leaf "模块导出规范" "/zh/posts/standard/best-practices/module-export.md"],
      .group "GitHub" none [
        .leaf "PR 描述规范" "/zh/posts/standard/github/pr-description.md"]]]),
  ("/zh/posts/incidents/", [
    .group "事故" none [
      .leaf "介绍" "/zh/posts/incidents/index.md",
      .leaf "PayPal SDK 崩溃事故" "/zh/posts/incidents/paypal-sdk-crash-2026-01-15.md"]]),
  ("/zh/posts/hooks/", [
    .group "Hooks" none [
      .leaf "介绍" "/zh/posts/hooks/index.md"]]),
  ("/zh/posts/utils/", [
    .group "Utils" none [
      .leaf "介绍" "/zh/posts/utils/index.md"]])]

end SidebarDir

/-! ## The Markdown documents of the repository

A Markdown document is recorded with its repository-relative file path,
the list of top-level keys of its YAML front-matter block (in source
order, `[]` when the file does not begin with a front-matter block),
and the value of the front-matter `title` key when one is present.

Part of the repository's file inventory reaches us without file names
(the `unnamed` parts, and documents appended to other files by the
extraction).  For those documents the path is inferred from the
document's own title, heading and language, matched against the named
part of the tree and against the routes the sidebars reference; each
inferred entry carries a comment naming the extraction segment it was
read from. -/

structure MdDoc where
  file : String
  fmKeys : List String
  title : Option String
deriving DecidableEq

/-- All Markdown documents of the repository.  The two superseded home
page revisions (the old English home page and the old Chinese home
page, which would collide with the current ones at `docs/index.md` and
`docs/zh/index.md`) carry the same front-matter keys
`[layout, hero, features]` and no `title`, so their omission does not
affect any front-matter property. -/
def repoMdDocs : List MdDoc := [
  -- named files
  ⟨"README.md", [], none⟩,
  ⟨"docs/index.md", ["layout", "hero", "features"], none⟩,
  ⟨"docs/posts/components/business/bookmark-banner.md", [], none⟩,
  ⟨"docs/posts/hooks/dom.md", [], none⟩,
  ⟨"docs/posts/hooks/effect.md", [], none⟩,
  ⟨"docs/posts/hooks/state.md", [], none⟩,
  ⟨"docs/posts/incidents/index.md", [], none⟩,
  ⟨"docs/posts/incidents/paypal-sdk-crash-2026-01-15.md", [], none⟩,
  ⟨"docs/posts/standard/best-practices/module-export.md", ["title", "description"],
    some "Module Export Standard"⟩,
  ⟨"docs/posts/standard/best-practices/svg-optimization.md", ["title", "description"],
    some "SVG File Optimization Standard"⟩,
  ⟨"docs/posts/standard/react/avoid-arrow-function-in-jsx.md", ["title", "description"],
    some "Avoid Arrow Functions in JSX"⟩,
  ⟨"docs/posts/standard/react/react-architecture-principles.md", ["title", "description"],
    some "React Architecture 30 Principles"⟩,
  ⟨"docs/posts/standard/react/usememo-usecreation-guide.md", ["title", "description"],
    some "useMemo and useCreation Usage Guide"⟩,
  ⟨"docs/posts/utils/time.md", [], none⟩,
  ⟨"docs/zh/posts/hooks/index.md", [], none⟩,
  ⟨"docs/zh/posts/hooks/other.md", [], none⟩,
  ⟨"docs/zh/posts/standard/best-practices/function-declaration.md", ["title", "description"],
    some "工具函数使用 function 声明规范"⟩,
  ⟨"docs/zh/posts/standard/best-practices/no-enum.md", ["title", "description"],
    some "禁止使用枚举（enum）规范"⟩,
  ⟨"docs/zh/posts/standard/react/react-coding-standards.md", ["title", "description", "outline"],
    some "React 编码规范"⟩,
  ⟨"docs/zh/posts/utils/function.md", [], none⟩,
  ⟨"docs/zh/posts/utils/other.md", [], none⟩,
  -- appended document of bookmark-banner.md: the English components introduction
  ⟨"docs/posts/components/index.md", [], none⟩,
  -- appended document of zh/posts/hooks/other.md: the Chinese BookmarkBanner page
  ⟨"docs/zh/posts/components/business/bookmark-banner.md", [], none⟩,
  -- appended document of zh react-coding-standards.md: the Chinese architecture page
  ⟨"docs/zh/posts/standard/react/react-architecture-principles.md", ["title", "description"],
    some "React 架构 30 条原则"⟩,
  -- appended document of zh no-enum.md: the Chinese module-export page
  ⟨"docs/zh/posts/standard/best-practices/module-export.md", ["title", "description"],
    some "模块导出规范"⟩,
  -- unnamed part 000: 类型判断 (Chinese type-judgement utils page)
  ⟨"docs/zh/posts/utils/type.md", [], none⟩,
  -- unnamed part 001, main document: 数组操作 (Chinese array utils page)
  ⟨"docs/zh/posts/utils/array.md", [], none⟩,
  -- unnamed part 001, appended document: the English Utils introduction
  ⟨"docs/posts/utils/index.md", [], none⟩,
  -- unnamed part 002: 字符串处理 (Chinese string utils page)
  ⟨"docs/zh/posts/utils/string.md", [], none⟩,
  -- unnamed part 003: English Git standard
  ⟨"docs/posts/standard/best-practices/git-standard.md", ["title", "description"],
    some "Git Standard"⟩,
  -- unnamed part 004: English enum-prohibition standard
  ⟨"docs/posts/standard/best-practices/no-enum.md", ["title", "description"],
    some "Prohibition of Enum Standard"⟩,
  -- unnamed part 005: English function-declaration standard
  ⟨"docs/posts/standard/best-practices/function-declaration.md", ["title", "description"],
    some "Function Declaration Standard"⟩,
  -- unnamed part 006: English Standards introduction
  ⟨"docs/posts/standard/index.md", [], none⟩,
  -- unnamed part 007: English React coding standards
  ⟨"docs/posts/standard/react/react-coding-standards.md", ["title", "description", "outline"],
    some "React Coding Standards"⟩,
  -- unnamed part 008: English PR description guidelines
  ⟨"docs/posts/standard/github/pr-description.md", ["title", "description"],
    some "PR Description Guidelines"⟩,
  -- unnamed part 009, main document: English Hooks introduction
  ⟨"docs/posts/hooks/index.md", [], none⟩,
  -- unnamed part 009, appended: the Chinese home page (its hero actions link into /zh/)
  ⟨"docs/zh/index.md", ["layout", "hero", "features"], none⟩,
  -- unnamed part 009, appended: the Chinese PayPal incident postmortem
  ⟨"docs/zh/posts/incidents/paypal-sdk-crash-2026-01-15.md", [], none⟩,
  -- unnamed part 009, appended: the Chinese Utils introduction
  ⟨"docs/zh/posts/utils/index.md", [], none⟩,
  -- unnamed part 009, appended: 对象操作 (Chinese object utils page)
  ⟨"docs/zh/posts/utils/object.md", [], none⟩,
  -- unnamed part 010: Chinese avoid-arrow-function page
  ⟨"docs/zh/posts/standard/react/avoid-arrow-function-in-jsx.md", ["title", "description"],
    some "React 性能优化指南：避免在 JSX 中直接写箭头函数"⟩,
  -- unnamed part 011: Chinese useMemo/useCreation guide
  ⟨"docs/zh/posts/standard/react/usememo-usecreation-guide.md", ["title", "description"],
    some "useMemo 与 useCreation 使用指南"⟩,
  -- unnamed part 012, main document: Chinese Git standard
  ⟨"docs/zh/posts/standard/best-practices/git-standard.md", ["title", "description"],
    some "Git 规范"⟩,
  -- unnamed part 012, appended: Chinese SVG optimization standard
  ⟨"docs/zh/posts/standard/best-practices/svg-optimization.md", ["title", "description"],
    some "SVG 文件优化规范"⟩]

/-- The site route of a document: for files under `docs/`, the
root-relative path the sidebar `link` fields use. -/
def routeOf (d : MdDoc) : Option String :=
  if d.file.take 5 = "docs/" then some ("/" ++ d.file.drop 5) else none

/-- All routes at which a Markdown document exists. -/
def docRoutes : List String := repoMdDocs.filterMap routeOf

/-- Whether a document begins with a YAML front-matter block. -/
def hasFrontMatter (d : MdDoc) : Bool := !d.fmKeys.isEmpty

/-- Whether a document's front-matter `title` is present and non-empty. -/
def fmTitleNonempty (d : MdDoc) : Bool :=
  match d.title with
  | some t => decide (t ≠ "")
  | none => false

/-- `p` is a prefix of the string `s`. -/
def strIsPre (p s : String) : Bool := decide (s.take p.length = p)

/-- The topic directories directly under a content root: the distinct
first path components, among the given routes, of the routes lying
under `root` and having at least one further path component. -/
def topicDirsUnder (root : String) (routes : List String) : List String :=
  (routes.filterMap fun r =>
    if r.take root.length = root then
      let rest := r.drop root.length
      if rest.toList.any (fun c => decide (c = '/')) then
        some (String.mk (rest.toList.takeWhile (fun c => decide (c ≠ '/'))))
      else none
    else none).dedup

/-- Topic directories of the English (default-locale) content root. -/
def enTopicDirs : List String := topicDirsUnder "/posts/" docRoutes

/-- Topic directories of the Chinese content root. -/
def zhTopicDirs : List String := topicDirsUnder "/zh/posts/" docRoutes

/-! ## `docs/.vitepress/config.mts`

The site configuration object, transcribed from the default export of
`docs/.vitepress/config.mts`.  Fields that VitePress treats as optional
are embedded as `Option` values, so that their presence in this
particular configuration is a fact about the data, not about the
types. -/

structure NavItem where
  text : String
  link : String
deriving DecidableEq

structure FooterConfig where
  message : String
  copyright : String
deriving DecidableEq

structure SocialLink where
  icon : String
  link : String
deriving DecidableEq

structure SearchButtonText where
  buttonText : String
  buttonAriaLabel : String
deriving DecidableEq

structure SearchModalFooterText where
  selectText : String
  navigateText : String
  closeText : String
deriving DecidableEq

structure SearchModalText where
  noResultsText : String
  resetButtonTitle : String
  footer : SearchModalFooterText
deriving DecidableEq

structure SearchTranslations where
  button : SearchButtonText
  modal : SearchModalText
deriving DecidableEq

structure SearchOptions where
  translations : SearchTranslations
deriving DecidableEq

structure SearchConfig where
  provider : String
  options : SearchOptions
deriving DecidableEq

structure DocFooterConfig where
  prev : String
  next : String
deriving DecidableEq

structure OutlineConfig where
  label : String
  level : Nat × Nat
deriving DecidableEq

structure LastUpdatedConfig where
  text : String
deriving DecidableEq

structure ThemeConfig where
  logo : Option String
  lastUpdated : Option LastUpdatedConfig
  docFooter : Option DocFooterConfig
  outline : Option OutlineConfig
  nav : Option (List NavItem)
  sidebar : Option SidebarConfig
  search : Option SearchConfig
  socialLinks : Option (List SocialLink)
  footer : Option FooterConfig

structure LocaleConfig where
  label : String
  lang : String
  title : Option String
  description : Option String
  themeConfig : Option ThemeConfig

structure HeadLink where
  rel : String
  href : String
  mimeType : String
deriving DecidableEq

structure SiteConfig where
  head : List HeadLink
  title : Option String
  description : Option String
  locales : List (String × LocaleConfig)

/-- The `themeConfig` of the `root` (English) locale in
`docs/.vitepress/config.mts`, transcribed verbatim. -/
def rootThemeConfig : ThemeConfig where
  logo := some "/favicon.svg"
  lastUpdated := some ⟨"Last updated"⟩
  docFooter := some ⟨"Previous", "Next"⟩
  outline := some ⟨"On this page", (2, 3)⟩
  nav := some [
    ⟨"Home", "/"⟩,
    ⟨"Standard", "/posts/standard/index.md"⟩,
    ⟨"Incidents", "/posts/incidents/index.md"⟩,
    ⟨"Hooks", "/posts/hooks/index.md"⟩,
    ⟨"Utils", "/posts/utils/index.md"⟩]
  sidebar := some SidebarDir.enSidebar
  search := some ⟨"local",
    ⟨⟨⟨"Search", "Search documentation"⟩,
      ⟨"No results for", "Reset search",
        ⟨"to select", "to navigate", "to close"⟩⟩⟩⟩⟩
  socialLinks := some [⟨"github", "https://github.com/bosinc/fe-docs"⟩]
  footer := some ⟨"Released under the MIT License.", "Copyright © 2019-present Pear"⟩

/-- The `themeConfig` of the `zh` (Chinese) locale in
`docs/.vitepress/config.mts`, transcribed verbatim. -/
def zhThemeConfig : ThemeConfig where
  logo := some "/favicon.svg"
  lastUpdated := some ⟨"更新时间"⟩
  docFooter := some ⟨"上一页", "下一页"⟩
  outline := some ⟨"大纲", (2, 3)⟩
  nav := some [
    ⟨"首页", "/zh/"⟩,
    ⟨"事故", "/zh/posts/incidents/index.md"⟩,
    ⟨"规范", "/zh/posts/standard/index.md"⟩,
    ⟨"Hooks", "/zh/posts/hooks/index.md"⟩,
    ⟨"Utils", "/zh/posts/utils/index.md"⟩]
  sidebar := some SidebarDir.zhSidebar
  search := some ⟨"local",
    ⟨⟨⟨"搜索", "搜索文档"⟩,
      ⟨"无法找到相关结果", "清除查询条件",
        ⟨"选择", "切换", "关闭"⟩⟩⟩⟩⟩
  socialLinks := some [⟨"github", "https://github.com/bosinc/fe-docs"⟩]
  footer := some ⟨"Released under the MIT License.", "Copyright © 2019-present Pear"⟩

/-- The default export of `docs/.vitepress/config.mts`, transcribed
verbatim. -/
def siteConfig : SiteConfig where
  head := [⟨"icon", "/favicon.svg", "image/svg+xml"⟩]
  title := some "Pear/docs"
  description := some "Modern JavaScript utility library"
  locales := [
    ("root", ⟨"English", "en", some "Pear Docs",
      some "Frontend Development Documentation", some rootThemeConfig⟩),
    ("zh", ⟨"中文", "zh-CN", some "Pear Docs",
      some "前端开发文档", some zhThemeConfig⟩)]

/-- A locale specifies its own title and description, theming, a
non-empty navigation bar, a sidebar mapping, a search provider, and
footer text. -/
def localeComplete (lc : LocaleConfig) : Bool :=
  lc.title.isSome && lc.description.isSome &&
  (match lc.themeConfig with
   | none => false
   | some tc =>
     (match tc.nav with
      | some (_ :: _) => true
      | _ => false) &&
     tc.sidebar.isSome &&
     (match tc.search with
      | some sc => decide (sc.provider ≠ "")
      | none => false) &&
     tc.footer.isSome)

/-! ## Combined views of the four sidebar objects -/

/-- Every link of the four sidebar objects (both modules, both
locales). -/
def allSidebarLinks : List String :=
  SidebarConfig.allLinks SidebarTs.enSidebar ++
  SidebarConfig.allLinks SidebarTs.zhSidebar ++
  SidebarConfig.allLinks SidebarDir.enSidebar ++
  SidebarConfig.allLinks SidebarDir.zhSidebar

/-- Every `(route-prefix key, link)` pair of the four sidebar
objects. -/
def allSidebarKeyedLinks : List (String × String) :=
  SidebarConfig.keyedLinks SidebarTs.enSidebar ++
  SidebarConfig.keyedLinks SidebarTs.zhSidebar ++
  SidebarConfig.keyedLinks SidebarDir.enSidebar ++
  SidebarConfig.keyedLinks SidebarDir.zhSidebar

/-- Every entry of the four sidebar objects. -/
def allSidebarEntries : List SidebarEntry :=
  SidebarConfig.allEntries SidebarTs.enSidebar ++
  SidebarConfig.allEntries SidebarTs.zhSidebar ++
  SidebarConfig.allEntries SidebarDir.enSidebar ++
  SidebarConfig.allEntries SidebarDir.zhSidebar

/-- Every parent list of the four sidebar objects. -/
def allSidebarParentLists : List (List SidebarEntry) :=
  SidebarConfig.parentLists SidebarTs.enSidebar ++
  SidebarConfig.parentLists SidebarTs.zhSidebar ++
  SidebarConfig.parentLists SidebarDir.enSidebar ++
  SidebarConfig.parentLists SidebarDir.zhSidebar

/-- The sidebar links at whose route no Markdown document exists in
the repository. -/
def brokenSidebarLinks : List String := [
  "/posts/hooks/other.md",
  "/posts/utils/string.md",
  "/posts/utils/object.md",
  "/posts/utils/array.md",
  "/posts/utils/function.md",
  "/posts/utils/type.md",
  "/posts/utils/other.md",
  "/zh/posts/hooks/state.md",
  "/zh/posts/hooks/effect.md",
  "/zh/posts/hooks/dom.md",
  "/zh/posts/utils/time.md",
  "/zh/posts/standard/index.md",
  "/zh/posts/standard/github/pr-description.md",
  "/zh/posts/incidents/index.md"]

/-- The record shape the specification ascribes to a sidebar entry: a
leaf `{text, link}` or a group `{text, items}` with no further
field. -/
def entryShapeClaim : SidebarEntry → Bool
  | .leaf _ _ => true
  | .group _ c _ => c.isNone

/-- The record shapes actually occurring in the sidebar objects: a
leaf `{text, link}`, or a group `{text, items}` optionally carrying
`collapsed: false` (never `collapsed: true`). -/
def entryShapeAmended : SidebarEntry → Bool
  | .leaf _ _ => true
  | .group _ c _ => decide (c ≠ some true)

/-- The front-matter keys the specification names as consumed by the
renderer. -/
def rendererFmKeys : List String := ["title", "description", "outline"]

/-- The front-matter keys of the VitePress home-page layout, used by
the two home pages. -/
def homeFmKeys : List String := ["layout", "hero", "features"]

mutual

/-- `zhImageE en zh`: the two entries have the same shape and `zh`'s
links are `/zh` prepended to `en`'s links, recursively. -/
def zhImageE : SidebarEntry → SidebarEntry → Bool
  | .leaf _ l, .leaf _ l2 => decide (l2 = "/zh" ++ l)
  | .group _ _ items, .group _ _ items2 => zhImageL items items2
  | _, _ => false

/-- `zhImageL`: pointwise `zhImageE` on lists of equal length. -/
def zhImageL : List SidebarEntry → List SidebarEntry → Bool
  | [], [] => true
  | e :: es, f :: fs => zhImageE e f && zhImageL es fs
  | _, _ => false

end

/-- `zhImageConfig en zh`: for every route-prefix key `K` of `en`,
`"/zh" ++ K` is a key of `zh` and the two entry trees correspond under
`zhImageL`. -/
def zhImageConfig (en zh : SidebarConfig) : Bool :=
  en.all fun kv =>
    match zh.find? (fun kv2 => decide (kv2.1 = "/zh" ++ kv.1)) with
    | some kv2 => zhImageL kv.2 kv2.2
    | none => false

/-! ## Theorems -/

/-- C1, counterexample: the claim that every sidebar link targets an
existing Markdown document fails. The entry `Others` under the key
`/posts/hooks/` of `enSidebar` in `docs/.vitepress/sidebar.ts` links
`/posts/hooks/other.md`, and no Markdown document of the repository
lies at that route (the only "other hooks" page is the Chinese one at
`docs/zh/posts/hooks/other.md`). -/
theorem sidebar_link_without_document :
    "/posts/hooks/other.md" ∈ SidebarConfig.allLinks SidebarTs.enSidebar ∧
    "/posts/hooks/other.md" ∉ docRoutes := by decide

/-- C1, amended: a sidebar link targets an existing Markdown document
exactly when it is not one of the fourteen broken links listed in
`brokenSidebarLinks`; in particular every link of the current English
sidebar (`docs/.vitepress/sidebar/enSidebar.ts`) resolves. -/
theorem sidebar_links_resolve_except_broken :
    ∀ l ∈ allSidebarLinks, (l ∈ docRoutes ↔ l ∉ brokenSidebarLinks) := by decide

/-- C1, witness: the amended theorem applied at the link
`/posts/standard/index.md` of the current English sidebar. -/
theorem sidebar_links_resolve_witness :
    "/posts/standard/index.md" ∈ docRoutes :=
  (sidebar_links_resolve_except_broken "/posts/standard/index.md" (by decide)).mpr
    (by decide)

/-- C2, counterexample: not every entry of the current English sidebar
is exactly `{text, link}` or `{text, items}`: several group entries
(e.g. the `React` group under `/posts/standard/`) additionally carry
`collapsed: false`. -/
theorem sidebar_entry_with_collapsed_field :
    ¬ (∀ e ∈ SidebarConfig.allEntries SidebarDir.enSidebar,
        entryShapeClaim e = true) := by decide

/-- C2, amended: every entry of all four sidebar objects is a leaf
`{text, link}` or a group `{text, items}`, where a group may
additionally carry `collapsed: false` (and no group carries
`collapsed: true`); no entry carries any other field. -/
theorem sidebar_entries_shape :
    ∀ e ∈ allSidebarEntries, entryShapeAmended e = true := by decide

/-- C2, witness: the amended theorem applied at the first entry of the
sidebar objects, the `Hooks` group of `docs/.vitepress/sidebar.ts`. -/
theorem sidebar_entries_shape_witness :
    entryShapeAmended (SidebarEntry.group "Hooks" none [
      .leaf "Introduction" "/posts/hooks/index.md",
      .leaf "State Management" "/posts/hooks/state.md",
      .leaf "Side Effects" "/posts/hooks/effect.md",
      .leaf "DOM Operations" "/posts/hooks/dom.md",
      .leaf "Others" "/posts/hooks/other.md"]) = true :=
  sidebar_entries_shape _ (List.Mem.head _)

set_option maxRecDepth 4096 in
/-- C3: the set of topic directories directly under the English
content root `/posts/` equals the set of topic directories directly
under the Chinese content root `/zh/posts/` (both are
`{standard, incidents, hooks, utils, components}`). -/
theorem locale_topic_dirs_mirror :
    (∀ t ∈ enTopicDirs, t ∈ zhTopicDirs) ∧
    (∀ t ∈ zhTopicDirs, t ∈ enTopicDirs) := by decide

set_option maxRecDepth 4096 in
/-- C3, witness: the mirror theorem applied at the topic directory
`hooks` of the English tree. -/
theorem locale_topic_dirs_mirror_witness :
    "hooks" ∈ zhTopicDirs :=
  locale_topic_dirs_mirror.1 "hooks" (by decide)

/-- C4, counterexample: the home page `docs/index.md` begins with a
YAML front-matter block (keys `layout`, `hero`, `features`) that
declares no `title` at all. -/
theorem home_page_front_matter_without_title :
    ∃ d ∈ repoMdDocs, d.file = "docs/index.md" ∧ hasFrontMatter d = true ∧
      d.title = none ∧ "title" ∉ d.fmKeys := by decide

/-- C4, amended: every Markdown document that begins with a YAML
front-matter block, except the home pages (those whose front-matter
uses the `layout` key), declares a `title` whose value is a non-empty
string. -/
theorem front_matter_title_nonempty :
    ∀ d ∈ repoMdDocs, hasFrontMatter d = true → "layout" ∉ d.fmKeys →
      "title" ∈ d.fmKeys ∧ fmTitleNonempty d = true := by decide

/-- C4, witness: the amended theorem applied at the module-export
standard document. -/
theorem front_matter_title_nonempty_witness :
    "title" ∈ (MdDoc.mk "docs/posts/standard/best-practices/module-export.md"
      ["title", "description"] (some "Module Export Standard")).fmKeys ∧
    fmTitleNonempty (MdDoc.mk "docs/posts/standard/best-practices/module-export.md"
      ["title", "description"] (some "Module Export Standard")) = true :=
  front_matter_title_nonempty _ (by decide) (by decide) (by decide)

/-- C5: in all four sidebar objects, the `link` values of the entries
directly under any one parent (a key's top-level list or a group's
`items` list) are pairwise distinct. -/
theorem no_duplicate_links_under_parent :
    ∀ L ∈ allSidebarParentLists, (SidebarConfig.directLinks L).Nodup := by decide

/-- C5, witness: the theorem applied at the first parent list, the
top-level list of the key `/posts/hooks/` of
`docs/.vitepress/sidebar.ts`. -/
theorem no_duplicate_links_under_parent_witness :
    (SidebarConfig.directLinks [SidebarEntry.group "Hooks" none [
      .leaf "Introduction" "/posts/hooks/index.md",
      .leaf "State Management" "/posts/hooks/state.md",
      .leaf "Side Effects" "/posts/hooks/effect.md",
      .leaf "DOM Operations" "/posts/hooks/dom.md",
      .leaf "Others" "/posts/hooks/other.md"]]).Nodup :=
  no_duplicate_links_under_parent _ (List.Mem.head _)

/-- C6, counterexample: the front-matter of the home page
`docs/index.md` uses the key `layout`, which is outside the renderer
key set `{title, description, outline}`. -/
theorem home_front_matter_key_outside_renderer_set :
    ∃ d ∈ repoMdDocs, d.file = "docs/index.md" ∧ "layout" ∈ d.fmKeys ∧
      "layout" ∉ rendererFmKeys := by decide

/-- C6, amended: every front-matter key of every Markdown document is
either one of the renderer keys `{title, description, outline}` or one
of the home-page layout keys `{layout, hero, features}`; documents
other than the home pages (those without the `layout` key) use renderer
keys only. -/
theorem front_matter_keys_in_renderer_or_home_set :
    (∀ d ∈ repoMdDocs, ∀ k ∈ d.fmKeys, k ∈ rendererFmKeys ∨ k ∈ homeFmKeys) ∧
    (∀ d ∈ repoMdDocs, "layout" ∉ d.fmKeys → ∀ k ∈ d.fmKeys, k ∈ rendererFmKeys) :=
  by decide

/-- C6, witness: the amended theorem applied at the key `title` of the
module-export standard document. -/
theorem front_matter_keys_witness :
    "title" ∈ rendererFmKeys ∨ "title" ∈ homeFmKeys :=
  front_matter_keys_in_renderer_or_home_set.1
    (MdDoc.mk "docs/posts/standard/best-practices/module-export.md"
      ["title", "description"] (some "Module Export Standard"))
    (by decide) "title" (by decide)

/-- C7: the single exported configuration object of
`docs/.vitepress/config.mts` carries a site title and description, its
locale keys are exactly `root` and `zh`, and every locale carries its
own title and description and a theme with a non-empty navigation bar,
a sidebar mapping, a search provider selection, and footer text. -/
theorem site_config_complete :
    siteConfig.title.isSome = true ∧ siteConfig.description.isSome = true ∧
    siteConfig.locales.map Prod.fst = ["root", "zh"] ∧
    siteConfig.locales.all (fun kv => localeComplete kv.2) = true := by decide

set_option maxRecDepth 8192 in
/-- C9: in all four sidebar objects, every link reachable under a
route-prefix key starts with that key. -/
theorem links_extend_their_route_key :
    ∀ kv ∈ allSidebarKeyedLinks, strIsPre kv.1 kv.2 = true := by decide

/-- C9, witness: the theorem applied at the pair of the key
`/posts/hooks/` and its link `/posts/hooks/index.md`. -/
theorem links_extend_their_route_key_witness :
    strIsPre "/posts/hooks/" "/posts/hooks/index.md" = true :=
  links_extend_their_route_key ("/posts/hooks/", "/posts/hooks/index.md") (by decide)

/-- C10: in `docs/.vitepress/sidebar.ts`, `zhSidebar` is the image of
`enSidebar` under prefixing with `/zh`: the key list of `zhSidebar` is
the key list of `enSidebar` with `/zh` prepended to each key, and for
every key the two entry trees have the same shape with each Chinese
link equal to `/zh` prepended to the corresponding English link. -/
theorem zh_sidebar_is_zh_image_of_en_sidebar :
    zhImageConfig SidebarTs.enSidebar SidebarTs.zhSidebar = true ∧
    SidebarTs.zhSidebar.map Prod.fst =
      SidebarTs.enSidebar.map (fun kv => "/zh" ++ kv.1) := by decide
